import Mathlib

/-!
Verification development for the `zero-latency-yolo` model tooling.

The repository has two scripts:
* `scripts/generate_dummy_model.py` — builds a small synthetic ONNX graph
  (one Conv, GlobalAveragePool, Flatten, Shape/Gather, Reshape) used as a
  test fixture.
* `scripts/convert_model.py` — the conversion pipeline: format dispatch
  (Darknet vs PyTorch), ONNX export, structural check, optional
  simplification, optional INT8 dynamic quantization, cleanup of the
  temporary file, and a diagnostic benchmark.

This file gives a shallow embedding of both.  The graph construction is
embedded value-for-value (node names, wiring, attributes, tensor payloads as
exact rationals standing for the float values).  The pipeline is embedded as
a deterministic function over an abstract file system (an association list
from paths to content identifiers) together with an environment recording
which optional libraries are importable and what the external library calls
return.
-/

set_option autoImplicit false

/-! ## Python string primitives used by the scripts -/

/-- Python `s.endswith(suffix)`. -/
def pyEndsWith (s suffix : String) : Bool :=
  suffix.data.isSuffixOf s.data

/-- Truthiness of an optional `argparse` string argument
(`None` and the empty string are falsy). -/
def pyTruthy : Option String → Bool
  | Option.none => false
  | Option.some s => s != ""

/-- Fuelled worker for `pyReplace`; the fuel is the length of the subject
string, which bounds the number of recursion steps. -/
def replaceListAux (pat rep : List Char) : Nat → List Char → List Char
  | _, [] => []
  | 0, l => l
  | fuel + 1, c :: rest =>
    if pat.isPrefixOf (c :: rest) then
      rep ++ replaceListAux pat rep fuel (rest.drop (pat.length - 1))
    else
      c :: replaceListAux pat rep fuel rest

/-- Python `s.replace(pat, rep)`: replace every non-overlapping occurrence,
left to right.  (The scripts only ever call it with a non-empty pattern.) -/
def pyReplace (s pat rep : String) : String :=
  if pat.data = [] then s
  else ⟨replaceListAux pat.data rep.data s.data.length s.data⟩

/-! ## Abstract file system

Paths map to abstract content identifiers (`Nat`); what matters for the
claims is which paths exist and how contents flow between them. -/

/-- The file system: an association list from path to content identifier. -/
abbrev FS := List (String × Nat)

/-- Content of the file at `p`, if it exists. -/
def lookupFS (p : String) : FS → Option Nat
  | [] => Option.none
  | e :: rest => if e.1 = p then Option.some e.2 else lookupFS p rest

/-- Write (create or overwrite) the file at `p` with content `c`. -/
def fsWrite (p : String) (c : Nat) (fs : FS) : FS :=
  (p, c) :: fs.filter (fun e => e.1 != p)

/-- Model of `os.remove p`. -/
def fsRemove (p : String) (fs : FS) : FS :=
  fs.filter (fun e => e.1 != p)

/-- Model of `os.path.exists p`. -/
def fsExists (p : String) (fs : FS) : Bool :=
  (lookupFS p fs).isSome

/-- State threaded through a run of the conversion script: the file system
and the console output (one entry per `print`, interpolations dropped). -/
structure RunState where
  fs : FS
  log : List String
deriving DecidableEq

/-! ## ONNX object model (the slice used by `generate_dummy_model.py`) -/

namespace OnnxModel

/-- The ONNX element types occurring in the scripts. -/
inductive ElemType where
  | FLOAT
  | INT64
  | INT8
deriving DecidableEq

/-- Embedding of `helper.make_tensor`: a constant tensor payload.  Values are exact
rationals standing for the stored floats/ints. -/
structure TensorProtoData where
  name : String
  data_type : ElemType
  dims : List Int
  vals : List ℚ
deriving DecidableEq

/-- Embedding of `helper.make_tensor_value_info`: a declared graph input or output. -/
structure ValueInfo where
  name : String
  elem_type : ElemType
  shape : List Int
deriving DecidableEq

/-- Embedding of `helper.make_node`: operator name, input/output tensor names, integer
attributes, and the optional `value` tensor attribute of `Constant` nodes. -/
structure Node where
  op_type : String
  inputs : List String
  outputs : List String
  intAttrs : List (String × List Int) := []
  tensorAttr : Option TensorProtoData := Option.none
deriving DecidableEq

/-- Embedding of `helper.make_graph`. -/
structure Graph where
  nodes : List Node
  name : String
  inputs : List ValueInfo
  outputs : List ValueInfo
  initializer : List TensorProtoData
deriving DecidableEq

/-- Embedding of `helper.make_model`: a graph plus the producer name and opset imports. -/
structure Model where
  graph : Graph
  producer_name : String
  opset_imports : List (String × Nat)
deriving DecidableEq

/-- All constant tensor payloads embedded in a model: the `value` attributes
of its `Constant` nodes plus the graph initializers. -/
def modelTensorDatas (m : Model) : List TensorProtoData :=
  (m.graph.nodes.filterMap Node.tensorAttr) ++ m.graph.initializer

/-! ### Structural validator (the checked part of `onnx.checker.check_model`)

Node inputs must resolve to a prior node output, a graph input, or an
initializer; every produced tensor name is produced by exactly one node; and
every declared graph output must be produced by some node. -/

/-- Walk the node list in order, threading the set of resolvable names. -/
def nodesResolve (avail : List String) : List Node → Bool
  | [] => true
  | n :: rest =>
    n.inputs.all avail.contains && nodesResolve (avail ++ n.outputs) rest

/-- All tensor names produced by the nodes, in order. -/
def nodeOutputNames (ns : List Node) : List String :=
  (ns.map Node.outputs).flatten

/-- No string occurs twice. -/
def distinctStrings : List String → Bool
  | [] => true
  | x :: xs => (!xs.contains x) && distinctStrings xs

/-- Structural validation of a graph. -/
def validateGraph (g : Graph) : Bool :=
  let avail := g.inputs.map ValueInfo.name ++ g.initializer.map TensorProtoData.name
  nodesResolve avail g.nodes
    && distinctStrings (nodeOutputNames g.nodes)
    && g.outputs.all (fun o => (nodeOutputNames g.nodes).contains o.name)

end OnnxModel

/-! ## `generate_dummy_model.py` -/

namespace GenerateDummyModel

open OnnxModel

/-- Exact clip, `np.clip x lo hi`. -/
def clipQ (x lo hi : ℚ) : ℚ := min (max x lo) hi

/-- Conversion to integer with truncation toward zero
(the C cast semantics of `astype(np.int8)` on in-range values). -/
def truncQ (q : ℚ) : ℤ :=
  if 0 ≤ q then ((q.num.toNat / q.den : Nat) : ℤ)
  else -(((-q).num.toNat / (-q).den : Nat) : ℤ)

/-- The weight transform applied when the `--quantize` flag is set:
`clip(w*127, -127, 127).astype(int8).astype(float32)/127`, over exact
rationals. -/
def quantizeWeight (w : ℚ) : ℚ :=
  ((truncQ (clipQ (w * 127) (-127) 127) : ℤ) : ℚ) / 127

/-- Embedding of `create_dummy_yolo_model(output_path, img_size, quantize)` from
`scripts/generate_dummy_model.py`, restricted to the model it constructs
(the part handed to `onnx.checker.check_model` and `onnx.save`).  `ws` is
the flattened random draw `np.random.randn(16,3,3,3) * 0.1`. -/
def create_dummy_yolo_model (img_size : Nat) (quantize : Bool) (ws : List ℚ) : Model :=
  let input_shape : List Int := [1, 3, (img_size : Int), (img_size : Int)]
  let output_shape : List Int := [1, 100, 85]
  let input_tensor : ValueInfo :=
    { name := "input", elem_type := ElemType.FLOAT, shape := input_shape }
  let output_tensor : ValueInfo :=
    { name := "output", elem_type := ElemType.FLOAT, shape := output_shape }
  let conv1_weight_data : List ℚ := if quantize then ws.map quantizeWeight else ws
  let conv1_weight : TensorProtoData :=
    { name := "conv1_weight", data_type := ElemType.FLOAT
      dims := [16, 3, 3, 3], vals := conv1_weight_data }
  let constant_node : Node :=
    { op_type := "Constant", inputs := [], outputs := ["conv1_weight_tensor"]
      tensorAttr := Option.some conv1_weight }
  let conv_node : Node :=
    { op_type := "Conv", inputs := ["input", "conv1_weight_tensor"]
      outputs := ["features"]
      intAttrs := [("kernel_shape", [3, 3]), ("pads", [1, 1, 1, 1]), ("strides", [2, 2])] }
  let gap_node : Node :=
    { op_type := "GlobalAveragePool", inputs := ["features"], outputs := ["global_features"] }
  let flatten_node : Node :=
    { op_type := "Flatten", inputs := ["global_features"], outputs := ["flattened_features"]
      intAttrs := [("axis", [1])] }
  let shape_node : Node :=
    { op_type := "Shape", inputs := ["input"], outputs := ["input_shape"] }
  let gather_node : Node :=
    { op_type := "Gather", inputs := ["input_shape", "zero_index"], outputs := ["batch_size"]
      intAttrs := [("axis", [0])] }
  let zero_tensor : TensorProtoData :=
    { name := "zero_tensor", data_type := ElemType.INT64, dims := [1], vals := [0] }
  let zero_index_node : Node :=
    { op_type := "Constant", inputs := [], outputs := ["zero_index"]
      tensorAttr := Option.some zero_tensor }
  let reshape_node : Node :=
    { op_type := "Reshape", inputs := ["flattened_features", "output_shape_tensor"]
      outputs := ["output"] }
  let output_shape_tensor : TensorProtoData :=
    { name := "output_shape_tensor_value", data_type := ElemType.INT64
      dims := [3], vals := [-1, 100, 85] }
  let output_shape_node : Node :=
    { op_type := "Constant", inputs := [], outputs := ["output_shape_tensor"]
      tensorAttr := Option.some output_shape_tensor }
  { graph :=
      { nodes := [zero_index_node, constant_node, conv_node, gap_node, flatten_node,
                  shape_node, gather_node, output_shape_node, reshape_node]
        name := "dummy_yolo"
        inputs := [input_tensor]
        outputs := [output_tensor]
        initializer := [] }
    producer_name := "ZeroLatencyYOLO"
    opset_imports := [("", 12)] }

end GenerateDummyModel

/-! ## `convert_model.py` -/

namespace ConvertModel

/-- The quantize choice, `int8` or `none`. -/
inductive QuantMode where
  | int8
  | none
deriving DecidableEq

/-- The parsed command line (`parse_args`). -/
structure Args where
  weights : String
  cfg : Option String
  output : String
  img_size : Nat
  batch_size : Nat
  quantize : QuantMode
  calibration_data : Option String
  opset : Nat
  simplify : Bool

/-- Result of `parse_args` with only the two required options given: every other
field takes its declared `argparse` default. -/
def parseArgsDefaults (weights output : String) : Args :=
  { weights := weights, cfg := Option.none, output := output
    img_size := 416, batch_size := 1, quantize := QuantMode.none
    calibration_data := Option.none, opset := 12, simplify := false }

/-- Ambient facts about the process: which optional imports succeed, what
the external library calls report, and how they transform file contents. -/
structure Env where
  torchAvailable : Bool
  onnxsimAvailable : Bool
  checkOk : Bool
  simplifyCheck : Bool
  benchOk : Bool
  exportContent : Nat
  simplifyContent : Nat → Nat
  quantContent : Nat → Nat

/-- Stage `convert_darknet_to_onnx`: needs `torch` (else install guidance and
`sys.exit(1)`); on success `torch.onnx.export` writes the graph to
`output_path`. -/
def convert_darknet_to_onnx (torchAvailable : Bool) (exportContent : Nat)
    (weights_path cfg_path output_path : String) (st : RunState) :
    Except (Nat × RunState) (String × RunState) :=
  if torchAvailable then
    Except.ok (output_path,
      { fs := fsWrite output_path exportContent st.fs
        log := st.log ++ ["正在加载Darknet模型", "正在导出模型到ONNX", "ONNX导出完成"] })
  else
    Except.error (1,
      { st with log := st.log ++
          ["错误: 无法导入需要的依赖。请安装PyTorch和YOLOv3实现。",
           "尝试: pip install torch>=1.7.0"] })

/-- Stage `convert_pytorch_to_onnx`: both import attempts need `torch`; absent
`torch`, install guidance and `sys.exit(1)`; otherwise export writes the
graph to `output_path`. -/
def convert_pytorch_to_onnx (torchAvailable : Bool) (exportContent : Nat)
    (weights_path output_path : String) (st : RunState) :
    Except (Nat × RunState) (String × RunState) :=
  if torchAvailable then
    Except.ok (output_path,
      { fs := fsWrite output_path exportContent st.fs
        log := st.log ++ ["正在加载PyTorch模型", "正在导出模型到ONNX", "ONNX导出完成"] })
  else
    Except.error (1,
      { st with log := st.log ++
          ["错误: 无法导入需要的依赖。请安装YOLOv5或YOLOv3实现。",
           "尝试: pip install torch>=1.7.0"] })

/-- Stage `check_onnx_model`: runs `onnx.checker.check_model`; on failure prints and
calls `sys.exit(1)`. -/
def check_onnx_model (checkOk : Bool) (onnx_path : String) (st : RunState) :
    Except (Nat × RunState) (Unit × RunState) :=
  if checkOk then
    Except.ok ((), { st with log := st.log ++ ["ONNX模型检查通过"] })
  else
    Except.error (1, { st with log := st.log ++ ["ONNX模型检查失败"] })

/-- Stage `simplify_onnx_model`: if `onnxsim` cannot be imported, print install
guidance and return the original path (no exit); if the simplifier
equivalence check fails, warn and return the original path; otherwise save
the simplified graph to `output_path` and return that path. -/
def simplify_onnx_model (onnxsimAvailable simplifyCheck : Bool)
    (simplifyContent : Nat → Nat) (onnx_path output_path : String) (st : RunState) :
    String × RunState :=
  if onnxsimAvailable = false then
    (onnx_path,
     { st with log := st.log ++ ["错误: 无法导入onnx-simplifier。请安装依赖:",
                                 "pip install onnx-simplifier"] })
  else
    let log1 := st.log ++ ["正在简化ONNX模型..."]
    if simplifyCheck then
      (output_path,
       { fs := fsWrite output_path (simplifyContent ((lookupFS onnx_path st.fs).getD 0)) st.fs
         log := log1 ++ ["简化的模型已保存到"] })
    else
      (onnx_path, { st with log := log1 ++ ["警告: 模型简化失败，使用原始模型"] })

/-- Stage `quantize_onnx_model`: the calibration directory only triggers a print
when it is supplied and exists; the quantization itself is always
`quantize_dynamic(onnx_path, output_path, weight_type=QInt8)`. -/
def quantize_onnx_model (quantContent : Nat → Nat)
    (onnx_path output_path : String) (calibration_data_dir : Option String)
    (st : RunState) : String × RunState :=
  let log1 := st.log ++ ["正在进行INT8量化..."] ++
    (if pyTruthy calibration_data_dir && fsExists (calibration_data_dir.getD "") st.fs
     then ["使用校准数据"] else [])
  (output_path,
   { fs := fsWrite output_path (quantContent ((lookupFS onnx_path st.fs).getD 0)) st.fs
     log := log1 ++ ["量化模型已保存到"] })

/-- Stage `test_onnx_model`: the whole benchmark body is inside `try/except
Exception`, so it only prints — it never touches the file system and never
propagates a failure. -/
def test_onnx_model (benchOk : Bool) (onnx_path : String) (img_size : Nat)
    (st : RunState) : RunState :=
  { fs := st.fs
    log := st.log ++ ["正在测试ONNX模型"] ++
      (if benchOk then ["平均推理时间", "推理速度"] else ["测试模型时出错"]) }

/-- The dispatch condition of `main`:
the weights path ending in `.weights` and a truthy `args.cfg`. -/
def chooseDarknet (weights : String) (cfg : Option String) : Bool :=
  pyEndsWith weights ".weights" && pyTruthy cfg

/-- The intermediate path `main` computes before dispatching: the export goes
to `output.replace` of `.onnx` by `_temp.onnx` when an optional stage is enabled,
and straight to the configured output path otherwise. -/
def tempPathOf (args : Args) : String :=
  if args.quantize ≠ QuantMode.none ∨ args.simplify = true then
    pyReplace args.output ".onnx" "_temp.onnx"
  else args.output

/-- Function `main` up to and including the intermediate-file cleanup (everything
before `test_onnx_model`); returns the final artifact path and state, or
the exit code of a fatal stage. -/
def mainCore (torchAvailable onnxsimAvailable checkOk simplifyCheck : Bool)
    (exportContent : Nat) (simplifyContent quantContent : Nat → Nat)
    (args : Args) (fs0 : FS) : Except (Nat × RunState) (String × RunState) :=
  let st0 : RunState := { fs := fs0, log := [] }
  let temp_onnx := tempPathOf args
  match (if chooseDarknet args.weights args.cfg then
           convert_darknet_to_onnx torchAvailable exportContent
             args.weights (args.cfg.getD "") temp_onnx st0
         else
           convert_pytorch_to_onnx torchAvailable exportContent
             args.weights temp_onnx st0) with
  | Except.error r => Except.error r
  | Except.ok (path1, st1) =>
    match check_onnx_model checkOk path1 st1 with
    | Except.error r => Except.error r
    | Except.ok (_, st2) =>
      let r3 :=
        if args.simplify = true then
          simplify_onnx_model onnxsimAvailable simplifyCheck simplifyContent path1
            (pyReplace temp_onnx "_temp.onnx" "_simplified.onnx") st2
        else (path1, st2)
      let r4 :=
        if args.quantize = QuantMode.int8 then
          quantize_onnx_model quantContent r3.1 args.output args.calibration_data r3.2
        else if r3.1 ≠ args.output then
          (args.output,
           { r3.2 with fs := fsWrite args.output ((lookupFS r3.1 r3.2.fs).getD 0) r3.2.fs })
        else r3
      let st5 :=
        if fsExists temp_onnx r4.2.fs = true ∧ temp_onnx ≠ args.output then
          { r4.2 with fs := fsRemove temp_onnx r4.2.fs }
        else r4.2
      Except.ok (r4.1, st5)

/-- Function `main` of `convert_model.py`: first `mainCore`, then the benchmark and the
final summary prints; first component is the process exit code. -/
def main (env : Env) (args : Args) (fs0 : FS) : Nat × RunState :=
  match mainCore env.torchAvailable env.onnxsimAvailable env.checkOk env.simplifyCheck
      env.exportContent env.simplifyContent env.quantContent args fs0 with
  | Except.error r => r
  | Except.ok (onnx_path, st) =>
    let st2 := test_onnx_model env.benchOk onnx_path args.img_size st
    (0, { st2 with log := st2.log ++ ["模型转换完成", "模型信息:"] })

/-! ### Concrete fixtures used for witnesses and counterexamples -/

/-- Every optional library importable and every external call succeeding;
`1` is the exported graph, `c + 1` its simplification, `c + 2` its
quantization. -/
def envAll : Env :=
  { torchAvailable := true, onnxsimAvailable := true, checkOk := true
    simplifyCheck := true, benchOk := true
    exportContent := 1, simplifyContent := fun c => c + 1, quantContent := fun c => c + 2 }

/-- Like `envAll` but `torch` is not importable. -/
def envNoTorch : Env := { envAll with torchAvailable := false }

/-- Like `envAll` but `onnx.checker.check_model` rejects the exported graph. -/
def envNoCheck : Env := { envAll with checkOk := false }

/-- Like `envAll` but `onnxsim` is not importable. -/
def envNoOnnxsim : Env := { envAll with onnxsimAvailable := false }

/-- Like `envAll` but the equivalence check of the simplifier fails. -/
def envDivergence : Env := { envAll with simplifyCheck := false }

/-- Arguments `--weights w.pt --output model.onnx` and defaults otherwise. -/
def argsPlain : Args := parseArgsDefaults "w.pt" "model.onnx"

/-- Fixture `argsPlain` plus the simplify flag. -/
def argsSimplify : Args := { parseArgsDefaults "w.pt" "model.onnx" with simplify := true }

end ConvertModel

example :
    OnnxModel.validateGraph (GenerateDummyModel.create_dummy_yolo_model 416 false []).graph
      = true := rfl

example :
    (GenerateDummyModel.create_dummy_yolo_model 416 true [1]).graph.outputs
      = [{ name := "output", elem_type := OnnxModel.ElemType.FLOAT, shape := [1, 100, 85] }] := rfl

example : pyReplace "model.onnx" ".onnx" "_temp.onnx" = "model_temp.onnx" := by decide

example : pyReplace "model_temp.onnx" "_temp.onnx" "_simplified.onnx" = "model_simplified.onnx" := by
  decide

/-! ## File-system lemmas -/

theorem lookup_filter_ne (p q : String) (fs : FS) (h : q ≠ p) :
    lookupFS q (fs.filter (fun e => e.1 != p)) = lookupFS q fs := by
  induction fs with
  | nil => rfl
  | cons a rest ih =>
    by_cases hap : a.1 = p
    · have hpq : p ≠ q := fun hpq => h hpq.symm
      simp [List.filter_cons, hap, lookupFS, hpq, ih]
    · by_cases haq : a.1 = q
      · simp [List.filter_cons, hap, lookupFS, haq, h]
      · simp [List.filter_cons, hap, lookupFS, haq, ih]

theorem lookup_fsWrite_self (p : String) (c : Nat) (fs : FS) :
    lookupFS p (fsWrite p c fs) = Option.some c := by
  simp [fsWrite, lookupFS]

theorem lookup_fsWrite_ne (p q : String) (c : Nat) (fs : FS) (h : q ≠ p) :
    lookupFS q (fsWrite p c fs) = lookupFS q fs := by
  have hpq : p ≠ q := fun hpq => h hpq.symm
  simp [fsWrite, lookupFS, hpq, lookup_filter_ne p q fs h]

theorem lookup_fsRemove_self (p : String) (fs : FS) :
    lookupFS p (fsRemove p fs) = Option.none := by
  induction fs with
  | nil => rfl
  | cons a rest ih =>
    by_cases hap : a.1 = p
    · simpa [fsRemove, List.filter_cons, hap] using ih
    · simpa [fsRemove, List.filter_cons, lookupFS, hap] using ih

theorem lookup_fsRemove_ne (p q : String) (fs : FS) (h : q ≠ p) :
    lookupFS q (fsRemove p fs) = lookupFS q fs :=
  lookup_filter_ne p q fs h

theorem fsExists_fsWrite_self (p : String) (c : Nat) (fs : FS) :
    fsExists p (fsWrite p c fs) = true := by
  simp [fsExists, lookup_fsWrite_self]

theorem fsExists_fsWrite_ne (p q : String) (c : Nat) (fs : FS) (h : q ≠ p) :
    fsExists q (fsWrite p c fs) = fsExists q fs := by
  simp [fsExists, lookup_fsWrite_ne p q c fs h]

theorem fsExists_fsRemove_self (p : String) (fs : FS) :
    fsExists p (fsRemove p fs) = false := by
  simp [fsExists, lookup_fsRemove_self]

theorem fsExists_fsRemove_ne (p q : String) (fs : FS) (h : q ≠ p) :
    fsExists q (fsRemove p fs) = fsExists q fs := by
  simp [fsExists, lookup_fsRemove_ne p q fs h]

/-! ## Bounds for the fixture quantization grid -/

namespace GenerateDummyModel

theorem truncAux_le (y : ℚ) (n : Nat) (hn : y ≤ (n : ℚ)) :
    y.num.toNat / y.den ≤ n := by
  have hden : (0 : ℚ) < (y.den : ℚ) := by exact_mod_cast y.den_pos
  have h1 : (y.num : ℚ) / (y.den : ℚ) ≤ (n : ℚ) := by rw [Rat.num_div_den]; exact hn
  have hnum : (y.num : ℚ) ≤ (n : ℚ) * (y.den : ℚ) := (div_le_iff₀ hden).mp h1
  have hnum' : y.num ≤ (n : ℤ) * (y.den : ℤ) := by exact_mod_cast hnum
  have hnat : y.num.toNat ≤ n * y.den := by omega
  calc y.num.toNat / y.den ≤ (n * y.den) / y.den := Nat.div_le_div_right hnat
    _ = n := Nat.mul_div_cancel n y.den_pos

theorem truncQ_bounds (x : ℚ) (n : Nat) (hl : -(n : ℚ) ≤ x) (hu : x ≤ (n : ℚ)) :
    -(n : ℤ) ≤ truncQ x ∧ truncQ x ≤ (n : ℤ) := by
  unfold truncQ
  by_cases hx : 0 ≤ x
  · rw [if_pos hx]
    constructor
    · have : (0 : ℤ) ≤ ((x.num.toNat / x.den : Nat) : ℤ) := Int.ofNat_nonneg _
      omega
    · exact_mod_cast truncAux_le x n hu
  · rw [if_neg hx]
    have hbound : -x ≤ (n : ℚ) := by linarith
    have := truncAux_le (-x) n hbound
    constructor
    · have : (((-x).num.toNat / (-x).den : Nat) : ℤ) ≤ (n : ℤ) := by exact_mod_cast this
      omega
    · have : (0 : ℤ) ≤ (((-x).num.toNat / (-x).den : Nat) : ℤ) := Int.ofNat_nonneg _
      omega

theorem quantizeWeight_grid (w : ℚ) :
    ∃ k : ℤ, -127 ≤ k ∧ k ≤ 127 ∧ quantizeWeight w = (k : ℚ) / 127 := by
  refine ⟨truncQ (clipQ (w * 127) (-127) 127), ?_, ?_, rfl⟩
  · have h := truncQ_bounds (clipQ (w * 127) (-127) 127) 127 ?_ ?_
    · exact_mod_cast h.1
    · unfold clipQ
      refine le_min (le_max_right _ _) (by norm_num)
    · exact min_le_right _ _
  · have h := truncQ_bounds (clipQ (w * 127) (-127) 127) 127 ?_ ?_
    · exact_mod_cast h.2
    · unfold clipQ
      refine le_min (le_max_right _ _) (by norm_num)
    · exact min_le_right _ _

end GenerateDummyModel

/-! ## Pipeline success lemmas -/

namespace ConvertModel

theorem mainCore_ok (t o c s : Bool) (e : Nat) (sc qc : Nat → Nat)
    (args : Args) (fs0 : FS) (ht : t = true) (hc : c = true) :
    ∃ p st, mainCore t o c s e sc qc args fs0 = Except.ok (p, st) := by
  subst ht hc
  unfold mainCore
  cases hcd : chooseDarknet args.weights args.cfg <;>
    simp [hcd, convert_darknet_to_onnx, convert_pytorch_to_onnx, check_onnx_model]

theorem main_exit_zero (env : Env) (args : Args) (fs0 : FS)
    (ht : env.torchAvailable = true) (hc : env.checkOk = true) :
    (main env args fs0).1 = 0 := by
  obtain ⟨p, st, h⟩ := mainCore_ok env.torchAvailable env.onnxsimAvailable env.checkOk
    env.simplifyCheck env.exportContent env.simplifyContent env.quantContent args fs0 ht hc
  simp [main, h]

end ConvertModel

example : (ConvertModel.main ConvertModel.envAll ConvertModel.argsSimplify []).2.fs =
    [("model.onnx", 2), ("model_simplified.onnx", 2)] := rfl

example : (ConvertModel.main ConvertModel.envNoCheck ConvertModel.argsPlain []).1 = 1 := rfl

example :
    fsExists "model.onnx" (ConvertModel.main ConvertModel.envNoCheck ConvertModel.argsPlain []).2.fs
      = true := rfl

example : (ConvertModel.main ConvertModel.envNoOnnxsim ConvertModel.argsSimplify []).1 = 0 := rfl

example :
    fsExists "model.onnx" (ConvertModel.main ConvertModel.envNoOnnxsim ConvertModel.argsSimplify []).2.fs
      = true := rfl

/-! ## Claims -/

/-- Claim C1, corrected.  The fixture builder takes `(img_size, quantize)` —
it has no `num_classes` or `opset` parameter — and for every input the
synthesized graph passes the structural validator; its single declared
output tensor has the fixed shape `[1, 100, 85]` (the `85 = 5 + 80` channel
layout with no anchor multiplier). -/
theorem C1_dummy_graph_validates (img_size : Nat) (quantize : Bool) (ws : List ℚ) :
    OnnxModel.validateGraph
        (GenerateDummyModel.create_dummy_yolo_model img_size quantize ws).graph = true ∧
    (GenerateDummyModel.create_dummy_yolo_model img_size quantize ws).graph.outputs =
      [{ name := "output", elem_type := OnnxModel.ElemType.FLOAT, shape := [1, 100, 85] }] :=
  ⟨rfl, rfl⟩

/-- Claim C1, counterexample to the claim as stated: at `size = 416` the
declared output tensor shape is `[1, 100, 85]`; no dimension of it equals
`255 = (5+80)*3`. -/
theorem C1_no_255_channel :
    ((GenerateDummyModel.create_dummy_yolo_model 416 false []).graph.outputs.map
        OnnxModel.ValueInfo.shape) = [[1, 100, 85]] ∧
    ¬ ((255 : Int) ∈ [(1 : Int), 100, 85]) :=
  ⟨rfl, by decide⟩

/-- Claim C5, confirmed.  `main` dispatches to the Darknet (legacy-binary)
loader exactly when the weights path ends in `.weights` and the config
argument is truthy, and to the PyTorch (checkpoint) loader otherwise; in
particular `weights.weights` with a config path is legacy-binary and
`weights.pt` without one is checkpoint. -/
theorem C5_format_dispatch (w : String) (c : Option String) :
    (ConvertModel.chooseDarknet w c = true ↔
      (pyEndsWith w ".weights" = true ∧ pyTruthy c = true)) ∧
    ConvertModel.chooseDarknet "weights.weights" (Option.some "yolov3.cfg") = true ∧
    ConvertModel.chooseDarknet "weights.pt" Option.none = false := by
  refine ⟨?_, by decide, by decide⟩
  simp [ConvertModel.chooseDarknet]

/-- Claim C7, corrected.  The conversion entry point defaults to opset 12,
and the fixture generator also stamps opset 12 into its model — not 9; the
two entry points agree. -/
theorem C7_opset_defaults (w o : String) (s : Nat) (q : Bool) (ws : List ℚ) :
    (ConvertModel.parseArgsDefaults w o).opset = 12 ∧
    (GenerateDummyModel.create_dummy_yolo_model s q ws).opset_imports = [("", 12)] :=
  ⟨rfl, rfl⟩

/-- Claim C7, counterexample to the claim as stated: the fixture generator
model declares opset 12, not 9. -/
theorem C7_fixture_opset_is_12 :
    (GenerateDummyModel.create_dummy_yolo_model 416 false []).opset_imports = [("", 12)] ∧
    (GenerateDummyModel.create_dummy_yolo_model 416 false []).opset_imports ≠ [("", 9)] :=
  ⟨rfl, by decide⟩

/-- Claim C8, confirmed.  `quantize_onnx_model` is independent of the
calibration-data directory: for any two values of that argument the
returned path and the resulting file system coincide, and the output file
always holds `quantize_dynamic` of the input graph (the directory only
influences a console message). -/
theorem C8_calibration_noninterference (quantContent : Nat → Nat)
    (p out : String) (cal1 cal2 : Option String) (st : RunState) :
    (ConvertModel.quantize_onnx_model quantContent p out cal1 st).1 =
      (ConvertModel.quantize_onnx_model quantContent p out cal2 st).1 ∧
    (ConvertModel.quantize_onnx_model quantContent p out cal1 st).2.fs =
      (ConvertModel.quantize_onnx_model quantContent p out cal2 st).2.fs ∧
    lookupFS out (ConvertModel.quantize_onnx_model quantContent p out cal1 st).2.fs =
      Option.some (quantContent ((lookupFS p st.fs).getD 0)) :=
  ⟨rfl, rfl, lookup_fsWrite_self _ _ _⟩

/-- Claim C10, confirmed.  With the quantize flag set, no constant tensor in
the emitted model has element type INT8; the convolution weight tensor is
declared FLOAT, and each of its values lies on the 1/127-spaced grid
clipped to `[-1, 1]`. -/
theorem C10_quantize_flag_stays_float (img_size : Nat) (ws : List ℚ) :
    (∀ t ∈ OnnxModel.modelTensorDatas
        (GenerateDummyModel.create_dummy_yolo_model img_size true ws),
        t.data_type ≠ OnnxModel.ElemType.INT8) ∧
    (∃ t ∈ OnnxModel.modelTensorDatas
        (GenerateDummyModel.create_dummy_yolo_model img_size true ws),
        t.name = "conv1_weight" ∧ t.data_type = OnnxModel.ElemType.FLOAT ∧
        ∀ v ∈ t.vals, ∃ k : ℤ, -127 ≤ k ∧ k ≤ 127 ∧ v = (k : ℚ) / 127) := by
  have hlist : OnnxModel.modelTensorDatas
      (GenerateDummyModel.create_dummy_yolo_model img_size true ws) =
      [{ name := "zero_tensor", data_type := OnnxModel.ElemType.INT64
         dims := [1], vals := [0] },
       { name := "conv1_weight", data_type := OnnxModel.ElemType.FLOAT
         dims := [16, 3, 3, 3], vals := ws.map GenerateDummyModel.quantizeWeight },
       { name := "output_shape_tensor_value", data_type := OnnxModel.ElemType.INT64
         dims := [3], vals := [-1, 100, 85] }] := rfl
  rw [hlist]
  constructor
  · intro t ht
    simp only [List.mem_cons, List.not_mem_nil, or_false] at ht
    rcases ht with h | h | h <;> subst h <;> simp
  · refine ⟨_, List.mem_cons_of_mem _ (List.mem_cons_self _ _), rfl, rfl, ?_⟩
    intro v hv
    rcases List.mem_map.mp hv with ⟨w, _, rfl⟩
    exact GenerateDummyModel.quantizeWeight_grid w

/-- Witness for C10 at `img_size = 3`, `ws = [1/2]`. -/
theorem C10_quantize_flag_stays_float_witness :
    ∃ t ∈ OnnxModel.modelTensorDatas
        (GenerateDummyModel.create_dummy_yolo_model 3 true [(1 : ℚ)/2]),
        t.name = "conv1_weight" ∧ t.data_type = OnnxModel.ElemType.FLOAT ∧
        ∀ v ∈ t.vals, ∃ k : ℤ, -127 ≤ k ∧ k ≤ 127 ∧ v = (k : ℚ) / 127 :=
  (C10_quantize_flag_stays_float 3 [(1 : ℚ)/2]).2

/-- When export succeeds but validation fails, `mainCore` stops with exit
code 1 and a file system holding exactly the exported graph at the
temp path. -/
theorem mainCore_check_fail (t o c s : Bool) (e : Nat) (sc qc : Nat → Nat)
    (args : ConvertModel.Args) (fs0 : FS) (ht : t = true) (hc : c = false) :
    ∃ L, ConvertModel.mainCore t o c s e sc qc args fs0 =
      Except.error (1, { fs := fsWrite (ConvertModel.tempPathOf args) e fs0, log := L }) := by
  subst ht hc
  unfold ConvertModel.mainCore
  cases hcd : ConvertModel.chooseDarknet args.weights args.cfg <;>
    simp [hcd, ConvertModel.convert_darknet_to_onnx, ConvertModel.convert_pytorch_to_onnx,
      ConvertModel.check_onnx_model]

/-- Claim C2, corrected.  When the exported graph fails validation the run
halts with exit code 1; if an optional stage (int8 quantization or
simplify) was requested — so that the export targets a distinct
`_temp.onnx` path — nothing is written to the final output path.  (Without
an optional stage the export writes directly to the output path, so a file
does remain there; see the counterexample.) -/
theorem C2_validation_failure_halts (env : ConvertModel.Env) (args : ConvertModel.Args)
    (fs0 : FS)
    (ht : env.torchAvailable = true) (hc : env.checkOk = false)
    (hopt : args.quantize = ConvertModel.QuantMode.int8 ∨ args.simplify = true)
    (hsep : pyReplace args.output ".onnx" "_temp.onnx" ≠ args.output)
    (hout : fsExists args.output fs0 = false) :
    (ConvertModel.main env args fs0).1 = 1 ∧
    fsExists args.output (ConvertModel.main env args fs0).2.fs = false := by
  obtain ⟨L, hL⟩ := mainCore_check_fail env.torchAvailable env.onnxsimAvailable env.checkOk
    env.simplifyCheck env.exportContent env.simplifyContent env.quantContent args fs0 ht hc
  have htemp : ConvertModel.tempPathOf args = pyReplace args.output ".onnx" "_temp.onnx" := by
    unfold ConvertModel.tempPathOf
    rcases hopt with h | h
    · exact if_pos (Or.inl (by rw [h]; decide))
    · exact if_pos (Or.inr h)
  constructor
  · simp [ConvertModel.main, hL]
  · simp only [ConvertModel.main, hL]
    rw [htemp, fsExists_fsWrite_ne _ _ _ _ (Ne.symm hsep)]
    exact hout

/-- Witness for C2 (corrected): validation failure with `--simplify` on. -/
theorem C2_validation_failure_halts_witness :
    (ConvertModel.main ConvertModel.envNoCheck ConvertModel.argsSimplify []).1 = 1 ∧
    fsExists "model.onnx"
      (ConvertModel.main ConvertModel.envNoCheck ConvertModel.argsSimplify []).2.fs = false :=
  C2_validation_failure_halts ConvertModel.envNoCheck ConvertModel.argsSimplify []
    rfl rfl (Or.inr rfl) (by decide) rfl

/-- Claim C2, counterexample to the claim as stated: with no optional stage
enabled (`--quantize none`, no `--simplify`) the export writes directly to
the configured output path, so after a validation failure the run exits 1
but a file does exist at the output path. -/
theorem C2_output_written_on_failure :
    (ConvertModel.main ConvertModel.envNoCheck ConvertModel.argsPlain []).1 = 1 ∧
    fsExists "model.onnx"
      (ConvertModel.main ConvertModel.envNoCheck ConvertModel.argsPlain []).2.fs = true :=
  ⟨rfl, rfl⟩

/-- Claim C3, corrected.  A missing `torch` is fatal with install guidance,
as claimed; but a missing `onnxsim` is not: `simplify_onnx_model` prints
install guidance, returns the original path with the file system untouched
(a fallback), and the run still completes with exit code 0. -/
theorem C3_missing_dependency (env : ConvertModel.Env) (args : ConvertModel.Args) (fs0 : FS)
    (sCheck : Bool) (sContent : Nat → Nat) (p out : String) (st : RunState) :
    (env.torchAvailable = false →
      (ConvertModel.main env args fs0).1 = 1 ∧
      "尝试: pip install torch>=1.7.0" ∈ (ConvertModel.main env args fs0).2.log) ∧
    ((ConvertModel.simplify_onnx_model false sCheck sContent p out st).1 = p ∧
     (ConvertModel.simplify_onnx_model false sCheck sContent p out st).2.fs = st.fs ∧
     "pip install onnx-simplifier" ∈
       (ConvertModel.simplify_onnx_model false sCheck sContent p out st).2.log) ∧
    (env.torchAvailable = true → env.checkOk = true →
      (ConvertModel.main env args fs0).1 = 0) := by
  refine ⟨?_, ⟨rfl, rfl, ?_⟩, fun ht hc => ConvertModel.main_exit_zero env args fs0 ht hc⟩
  · intro hT
    unfold ConvertModel.main ConvertModel.mainCore
    cases hcd : ConvertModel.chooseDarknet args.weights args.cfg <;>
      simp [hcd, hT, ConvertModel.convert_darknet_to_onnx, ConvertModel.convert_pytorch_to_onnx]
  · simp [ConvertModel.simplify_onnx_model]

/-- Witness for C3 (corrected): a run without `torch`, the degraded
simplify stage, and a run without `onnxsim` finishing successfully. -/
theorem C3_missing_dependency_witness :
    ((ConvertModel.main ConvertModel.envNoTorch ConvertModel.argsPlain []).1 = 1 ∧
     "尝试: pip install torch>=1.7.0" ∈
       (ConvertModel.main ConvertModel.envNoTorch ConvertModel.argsPlain []).2.log) ∧
    ((ConvertModel.simplify_onnx_model false true (fun c => c + 1) "a.onnx" "b.onnx"
        ⟨[], []⟩).1 = "a.onnx") ∧
    (ConvertModel.main ConvertModel.envNoOnnxsim ConvertModel.argsSimplify []).1 = 0 :=
  ⟨(C3_missing_dependency ConvertModel.envNoTorch ConvertModel.argsPlain []
      true (fun c => c + 1) "a.onnx" "b.onnx" ⟨[], []⟩).1 rfl,
   ((C3_missing_dependency ConvertModel.envNoTorch ConvertModel.argsPlain []
      true (fun c => c + 1) "a.onnx" "b.onnx" ⟨[], []⟩).2.1).1,
   (C3_missing_dependency ConvertModel.envNoOnnxsim ConvertModel.argsSimplify []
      true (fun c => c + 1) "a.onnx" "b.onnx" ⟨[], []⟩).2.2 rfl rfl⟩

/-- Claim C3, counterexample to the claim as stated: with `onnxsim` absent
and `--simplify` requested, the run does not terminate fatally — it exits 0
and still produces the output artifact from the unsimplified graph. -/
theorem C3_onnxsim_absent_not_fatal :
    (ConvertModel.main ConvertModel.envNoOnnxsim ConvertModel.argsSimplify []).1 = 0 ∧
    fsExists "model.onnx"
      (ConvertModel.main ConvertModel.envNoOnnxsim ConvertModel.argsSimplify []).2.fs = true :=
  ⟨rfl, rfl⟩

/-- Claim C4, confirmed.  When the equivalence check of the simplifier fails, the
simplify stage returns the original path, writes nothing to the file
system, and logs a non-fatal warning; the failure never propagates — a run
whose export and validation succeed still exits 0. -/
theorem C4_divergence_recoverable (sContent : Nat → Nat) (p out : String) (st : RunState)
    (env : ConvertModel.Env) (args : ConvertModel.Args) (fs0 : FS)
    (ht : env.torchAvailable = true) (hc : env.checkOk = true)
    (hos : env.onnxsimAvailable = true) (hdiv : env.simplifyCheck = false) :
    (ConvertModel.simplify_onnx_model true false sContent p out st).1 = p ∧
    (ConvertModel.simplify_onnx_model true false sContent p out st).2.fs = st.fs ∧
    "警告: 模型简化失败，使用原始模型" ∈
      (ConvertModel.simplify_onnx_model true false sContent p out st).2.log ∧
    (ConvertModel.main env args fs0).1 = 0 := by
  refine ⟨rfl, rfl, ?_, ConvertModel.main_exit_zero env args fs0 ht hc⟩
  simp [ConvertModel.simplify_onnx_model]

/-- Witness for C4 at a concrete divergent run. -/
theorem C4_divergence_recoverable_witness :
    (ConvertModel.simplify_onnx_model true false (fun c => c + 1) "a.onnx" "b.onnx"
        ⟨[], []⟩).1 = "a.onnx" ∧
    (ConvertModel.simplify_onnx_model true false (fun c => c + 1) "a.onnx" "b.onnx"
        ⟨[], []⟩).2.fs = ([] : FS) ∧
    "警告: 模型简化失败，使用原始模型" ∈
      (ConvertModel.simplify_onnx_model true false (fun c => c + 1) "a.onnx" "b.onnx"
        ⟨[], []⟩).2.log ∧
    (ConvertModel.main ConvertModel.envDivergence ConvertModel.argsSimplify []).1 = 0 :=
  C4_divergence_recoverable (fun c => c + 1) "a.onnx" "b.onnx" ⟨[], []⟩
    ConvertModel.envDivergence ConvertModel.argsSimplify [] rfl rfl rfl rfl

/-- Claim C9, confirmed.  The benchmark stage never touches the file system;
flipping its success or failure changes neither the exit code nor the final
file system of a run; and a run that reaches the benchmark exits 0. -/
theorem C9_benchmark_isolated (env : ConvertModel.Env) (args : ConvertModel.Args)
    (fs0 : FS) (b1 b2 : Bool) :
    (∀ (b : Bool) (p : String) (n : Nat) (st : RunState),
        (ConvertModel.test_onnx_model b p n st).fs = st.fs) ∧
    (ConvertModel.main { env with benchOk := b1 } args fs0).1 =
      (ConvertModel.main { env with benchOk := b2 } args fs0).1 ∧
    (ConvertModel.main { env with benchOk := b1 } args fs0).2.fs =
      (ConvertModel.main { env with benchOk := b2 } args fs0).2.fs ∧
    (env.torchAvailable = true → env.checkOk = true →
      (ConvertModel.main env args fs0).1 = 0) := by
  refine ⟨fun b p n st => rfl, ?_, ?_,
    fun ht hc => ConvertModel.main_exit_zero env args fs0 ht hc⟩ <;>
  · cases env
    simp only [ConvertModel.main]
    cases ConvertModel.mainCore .. <;> simp [ConvertModel.test_onnx_model]

/-- Witness for C9 at a concrete successful run with a failing benchmark. -/
theorem C9_benchmark_isolated_witness :
    (ConvertModel.test_onnx_model false "model.onnx" 416 ⟨[], []⟩).fs = ([] : FS) ∧
    (ConvertModel.main { ConvertModel.envAll with benchOk := false }
        ConvertModel.argsPlain []).1 =
      (ConvertModel.main { ConvertModel.envAll with benchOk := true }
        ConvertModel.argsPlain []).1 ∧
    (ConvertModel.main ConvertModel.envAll ConvertModel.argsPlain []).1 = 0 :=
  ⟨(C9_benchmark_isolated ConvertModel.envAll ConvertModel.argsPlain [] false true).1
      false "model.onnx" 416 ⟨[], []⟩,
   (C9_benchmark_isolated ConvertModel.envAll ConvertModel.argsPlain [] false true).2.1,
   (C9_benchmark_isolated ConvertModel.envAll ConvertModel.argsPlain [] false true).2.2.2
      rfl rfl⟩

/-- Shape of a successful run with `--simplify` on, `onnxsim` importable and
the equivalence check passing: the export lands at the temp path, the
simplified graph at the `_simplified.onnx` path, some content at the output
path, and the cleanup removes exactly the temp path. -/
theorem mainCore_simplify_run (t o c s : Bool) (e : Nat) (sc qc : Nat → Nat)
    (args : ConvertModel.Args) (fs0 : FS)
    (ht : t = true) (hc : c = true) (ho : o = true) (hs : s = true)
    (hsimp : args.simplify = true)
    (hTO : ConvertModel.tempPathOf args ≠ args.output)
    (hST : pyReplace (ConvertModel.tempPathOf args) "_temp.onnx" "_simplified.onnx" ≠
      ConvertModel.tempPathOf args)
    (hSO : pyReplace (ConvertModel.tempPathOf args) "_temp.onnx" "_simplified.onnx" ≠
      args.output) :
    ∃ cO L, ConvertModel.mainCore t o c s e sc qc args fs0 =
      Except.ok (args.output,
        { fs := fsRemove (ConvertModel.tempPathOf args)
            (fsWrite args.output cO
              (fsWrite (pyReplace (ConvertModel.tempPathOf args) "_temp.onnx" "_simplified.onnx")
                (sc e)
                (fsWrite (ConvertModel.tempPathOf args) e fs0)))
          log := L }) := by
  subst ht hc ho hs
  have hlook1 : lookupFS (ConvertModel.tempPathOf args)
      (fsWrite (ConvertModel.tempPathOf args) e fs0) = Option.some e :=
    lookup_fsWrite_self _ _ _
  have hlook2 : lookupFS
      (pyReplace (ConvertModel.tempPathOf args) "_temp.onnx" "_simplified.onnx")
      (fsWrite (pyReplace (ConvertModel.tempPathOf args) "_temp.onnx" "_simplified.onnx") (sc e)
        (fsWrite (ConvertModel.tempPathOf args) e fs0)) = Option.some (sc e) :=
    lookup_fsWrite_self _ _ _
  have hexT : ∀ c1 c2, fsExists (ConvertModel.tempPathOf args)
      (fsWrite args.output c1
        (fsWrite (pyReplace (ConvertModel.tempPathOf args) "_temp.onnx" "_simplified.onnx") c2
          (fsWrite (ConvertModel.tempPathOf args) e fs0))) = true := by
    intro c1 c2
    rw [fsExists_fsWrite_ne _ _ _ _ hTO, fsExists_fsWrite_ne _ _ _ _ (Ne.symm hST),
      fsExists_fsWrite_self]
  unfold ConvertModel.mainCore
  cases hcd : ConvertModel.chooseDarknet args.weights args.cfg <;>
    cases hq : args.quantize <;>
      simp [hcd, hq, hsimp, ConvertModel.convert_darknet_to_onnx,
        ConvertModel.convert_pytorch_to_onnx, ConvertModel.check_onnx_model,
        ConvertModel.simplify_onnx_model, ConvertModel.quantize_onnx_model,
        hlook1, hlook2, hexT, hTO, hSO] <;>
      exact ⟨_, rfl⟩

/-- Claim C6, corrected.  On a successful run the cleanup removes only the
`_temp.onnx` intermediate; the `_simplified.onnx` file written by the
simplify stage is never removed and still exists when the run ends (even
though it is distinct from the configured output path). -/
theorem C6_temp_removed_simplified_persists (env : ConvertModel.Env)
    (args : ConvertModel.Args) (fs0 : FS)
    (ht : env.torchAvailable = true) (hc : env.checkOk = true)
    (hos : env.onnxsimAvailable = true) (hsc : env.simplifyCheck = true)
    (hsimp : args.simplify = true)
    (hTO : ConvertModel.tempPathOf args ≠ args.output)
    (hST : pyReplace (ConvertModel.tempPathOf args) "_temp.onnx" "_simplified.onnx" ≠
      ConvertModel.tempPathOf args)
    (hSO : pyReplace (ConvertModel.tempPathOf args) "_temp.onnx" "_simplified.onnx" ≠
      args.output) :
    (ConvertModel.main env args fs0).1 = 0 ∧
    fsExists (ConvertModel.tempPathOf args) (ConvertModel.main env args fs0).2.fs = false ∧
    fsExists (pyReplace (ConvertModel.tempPathOf args) "_temp.onnx" "_simplified.onnx")
      (ConvertModel.main env args fs0).2.fs = true := by
  obtain ⟨cO, L, hM⟩ := mainCore_simplify_run env.torchAvailable env.onnxsimAvailable
    env.checkOk env.simplifyCheck env.exportContent env.simplifyContent env.quantContent
    args fs0 ht hc hos hsc hsimp hTO hST hSO
  refine ⟨?_, ?_, ?_⟩
  · simp [ConvertModel.main, hM]
  · simp [ConvertModel.main, hM, ConvertModel.test_onnx_model, fsExists_fsRemove_self]
  · simp [ConvertModel.main, hM, ConvertModel.test_onnx_model,
      fsExists_fsRemove_ne _ _ _ hST, fsExists_fsWrite_ne _ _ _ _ hSO, fsExists_fsWrite_self]

/-- Witness for C6 (corrected) at a concrete `--simplify` run. -/
theorem C6_temp_removed_simplified_persists_witness :
    (ConvertModel.main ConvertModel.envAll ConvertModel.argsSimplify []).1 = 0 ∧
    fsExists (ConvertModel.tempPathOf ConvertModel.argsSimplify)
      (ConvertModel.main ConvertModel.envAll ConvertModel.argsSimplify []).2.fs = false ∧
    fsExists (pyReplace (ConvertModel.tempPathOf ConvertModel.argsSimplify)
        "_temp.onnx" "_simplified.onnx")
      (ConvertModel.main ConvertModel.envAll ConvertModel.argsSimplify []).2.fs = true :=
  C6_temp_removed_simplified_persists ConvertModel.envAll ConvertModel.argsSimplify []
    rfl rfl rfl rfl rfl (by decide) (by decide) (by decide)

/-- Claim C6, counterexample to the claim as stated: after a successful run
with `--simplify`, the intermediate file `model_simplified.onnx` — distinct
from the configured output path — still exists. -/
theorem C6_simplified_file_left_behind :
    (ConvertModel.main ConvertModel.envAll ConvertModel.argsSimplify []).1 = 0 ∧
    "model_simplified.onnx" ≠ ConvertModel.argsSimplify.output ∧
    fsExists "model_simplified.onnx"
      (ConvertModel.main ConvertModel.envAll ConvertModel.argsSimplify []).2.fs = true :=
  ⟨rfl, by decide, rfl⟩
